import Mathlib

/-!
# Verification of the `libabort` crate (abort/trap selection and primitives)

Shallow embedding of the repository:
* `build.rs` — the build script that inspects the target architecture, the
  Rust toolchain version/channel and the enabled cargo features, and emits
  the `trap_impl` / `abort_impl` configuration strings consumed by `lib.rs`.
* `src/lib.rs` — the runtime primitives `abort`, `immediate_abort`,
  `fallback_abort`, `trap`, `invoke_trap` and the `AbortGuard` RAII type.

Because every configuration decision is made at build time, the embedding
threads an explicit `BuildConfig` value (the inputs of the build script plus
the `cfg!(panic = "abort")` flag consulted by `lib.rs`) through every
function.  A function that is removed by `#[cfg(...)]` in some configuration
is embedded as an `Option`-valued function returning `none` there.  The
functions of `lib.rs` never return to the caller; their embedding returns the
terminating `Outcome` they produce, with a `returnsToCaller` constructor
present only so that "never returns" is a non-trivial statement.
-/

/-- The Rust toolchain version, as seen by the `rustversion_detect` crate
used in `build.rs`: a `major.minor` version plus a nightly-channel flag. -/
structure RustVersion where
  major : Nat
  minor : Nat
  nightly : Bool
deriving DecidableEq

/-- Embedding of `RUST_VERSION.is_since_minor_version(major, minor)`:
the toolchain version is at least `maj.min`. -/
def RustVersion.is_since_minor_version (v : RustVersion) (maj min : Nat) : Bool :=
  v.major > maj || (v.major == maj && v.minor >= min)

/-- Embedding of `RUST_VERSION.is_nightly()`. -/
def RustVersion.is_nightly (v : RustVersion) : Bool :=
  v.nightly

/-- The build-time inputs of the crate: the single `cfg!(target_arch)` value
asserted by `build.rs`, the toolchain version, the cargo feature flags, and
the `cfg!(panic = "abort")` flag consulted by `fallback_abort`. -/
structure BuildConfig where
  target_arch : String
  rust_version : RustVersion
  feature_std : Bool
  feature_libc : Bool
  feature_abort_via_trap : Bool
  feature_always_immediate_abort : Bool
  panic_abort : Bool
deriving DecidableEq

/-- Embedding of the `supported_arch` match in `build.rs`: architectures with
a known inline-assembly trap encoding. -/
def supported_arch (target_arch : String) : Bool :=
  match target_arch with
  | "x86_64" | "x86" | "arm" | "aarch64" => true
  | _ => false

/-- Embedding of the `has_cfg_panic` cfg emitted by `build.rs`:
`cfg!(panic = "abort")` was stabilized in Rust 1.60.0. -/
def has_cfg_panic (c : BuildConfig) : Bool :=
  c.rust_version.is_since_minor_version 1 60

/-- Embedding of the `trap_impl_name` if/else chain in `build.rs`.  The
result is one of `"wasm32-intrinsic"`, `"wasm64-intrinsic"`,
`"core-intrinsics"`, `"assembly"`, `"fallback"`. -/
def trap_impl_name (c : BuildConfig) : String :=
  if c.target_arch = "wasm32" ∧ c.rust_version.is_since_minor_version 1 37 then
    "wasm32-intrinsic"
  else if c.target_arch = "wasm64" ∧ c.rust_version.is_nightly then
    "wasm64-intrinsic"
  else if c.rust_version.is_nightly then
    "core-intrinsics"
  else if supported_arch c.target_arch ∧ c.rust_version.is_since_minor_version 1 59 then
    "assembly"
  else
    "fallback"

/-- Embedding of the `abort_impl_name` if/else chain in `build.rs`.  The
result is one of `"std"`, `"libc"`, `"trap"`, `"fallback"`. -/
def abort_impl_name (c : BuildConfig) : String :=
  if c.feature_std then
    "std"
  else if c.feature_libc then
    "libc"
  else if c.feature_abort_via_trap ∧ trap_impl_name c ≠ "fallback" then
    "trap"
  else
    "fallback"

/-- The spec's closed enumeration of trap strategies (§3 of the design). -/
inductive TrapStrategy where
  | PlatformIntrinsic (family : String)
  | CoreIntrinsic
  | InlineAssembly
  | Unavailable
deriving DecidableEq

/-- The spec's closed enumeration of abort strategies (§3 of the design). -/
inductive AbortStrategy where
  | StandardRuntime
  | CRuntime
  | ViaTrap
  | PanicFallback
deriving DecidableEq

/-- Reading of the `trap_impl` configuration string as a `TrapStrategy`. -/
def trapStrategyOfImpl : String → Option TrapStrategy
  | "wasm32-intrinsic" => some (.PlatformIntrinsic "wasm32")
  | "wasm64-intrinsic" => some (.PlatformIntrinsic "wasm64")
  | "core-intrinsics" => some .CoreIntrinsic
  | "assembly" => some .InlineAssembly
  | "fallback" => some .Unavailable
  | _ => none

/-- Reading of the `abort_impl` configuration string as an `AbortStrategy`. -/
def abortStrategyOfImpl : String → Option AbortStrategy
  | "std" => some .StandardRuntime
  | "libc" => some .CRuntime
  | "trap" => some .ViaTrap
  | "fallback" => some .PanicFallback
  | _ => none

/-- The `TrapStrategy` selected by the build script for a configuration. -/
def selectedTrapStrategy (c : BuildConfig) : Option TrapStrategy :=
  trapStrategyOfImpl (trap_impl_name c)

/-- The `AbortStrategy` selected by the build script for a configuration. -/
def selectedAbortStrategy (c : BuildConfig) : Option AbortStrategy :=
  abortStrategyOfImpl (abort_impl_name c)

/-- The observable outcome of calling one of the runtime primitives.  All
constructors except `returnsToCaller` denote immediate process termination;
`returnsToCaller` exists only so that never-returning is expressible.
`doublePanic guardMsg mainMsg` is the double-panic protocol: a scoped guard
whose drop raises `guardMsg` is installed, then `mainMsg` is raised. -/
inductive Outcome where
  | returnsToCaller
  | stdAbort
  | libcAbort
  | trapInstr (instr : String)
  | panicOnce (msg : String)
  | doublePanic (guardMsg mainMsg : String)
deriving DecidableEq

/-- An outcome is non-returning iff it is not `returnsToCaller`. -/
def Outcome.neverReturns : Outcome → Bool
  | .returnsToCaller => false
  | _ => true

/-- The panic messages raised by an outcome, in the order they are raised
(the double-panic protocol raises the main message first, then the guard's
message during unwinding). -/
def Outcome.panicMsgs : Outcome → List String
  | .panicOnce m => [m]
  | .doublePanic g m => [m, g]
  | _ => []

/-- The panic message of `do_panic` in `fallback_abort` (`src/lib.rs`). -/
def panicMessage : String := "fatal error - aborting"

/-- Embedding of the `PANIC_DOES_ABORT` constant inside `fallback_abort`:
`cfg!(panic = "abort")` when `has_cfg_panic`, and `false` otherwise. -/
def PANIC_DOES_ABORT (c : BuildConfig) : Bool :=
  if has_cfg_panic c then c.panic_abort else false

/-- Embedding of `fallback_abort` (`src/lib.rs`).  The function only exists
when `abort_impl = "fallback"`.  It raises a single panic when
`PANIC_DOES_ABORT`, and otherwise installs the `DoublePanicGuard` (whose
drop calls `do_panic()` again) and then calls `do_panic()`. -/
def fallback_abort (c : BuildConfig) : Option Outcome :=
  if abort_impl_name c = "fallback" then
    some (if PANIC_DOES_ABORT c then
            Outcome.panicOnce panicMessage
          else
            Outcome.doublePanic panicMessage panicMessage)
  else
    none

/-- The `compile_error!` diagnostics produced when compiling the crate: the
body of `fallback_abort` contains
`compile_error!("Missing ...")` under `#[cfg(feature = "always-immediate-abort")]`,
and `fallback_abort` itself is only compiled when `abort_impl = "fallback"`. -/
def compile_errors (c : BuildConfig) : List String :=
  if abort_impl_name c = "fallback" ∧ c.feature_always_immediate_abort then
    ["Missing `immediate_abort()` implementation but fallback disabled."]
  else
    []

/-- Embedding of `invoke_trap` (`src/lib.rs`): missing when
`trap_impl = "fallback"`, otherwise executes the cfg-selected trap
instruction or intrinsic.  In the `"assembly"` case the instruction is
selected by `target_arch`; an architecture outside the supported set has no
assembly block (which the selector never allows). -/
def invoke_trap (c : BuildConfig) : Option Outcome :=
  if trap_impl_name c = "fallback" then
    none
  else if trap_impl_name c = "wasm32-intrinsic" then
    some (.trapInstr "core::arch::wasm32::unreachable")
  else if trap_impl_name c = "wasm64-intrinsic" then
    some (.trapInstr "core::arch::wasm64::unreachable")
  else if trap_impl_name c = "core-intrinsics" then
    some (.trapInstr "core::intrinsics::abort")
  else
    if c.target_arch = "x86" ∨ c.target_arch = "x86_64" then
      some (.trapInstr "ud2")
    else if c.target_arch = "aarch64" ∨ c.target_arch = "arm" then
      some (.trapInstr "udf #0xDEAD")
    else
      none

/-- Embedding of `immediate_abort` (`src/lib.rs`): missing when
`abort_impl = "fallback"`, otherwise the cfg-selected platform abort call. -/
def immediate_abort (c : BuildConfig) : Option Outcome :=
  if abort_impl_name c = "fallback" then
    none
  else if abort_impl_name c = "std" then
    some .stdAbort
  else if abort_impl_name c = "libc" then
    some .libcAbort
  else
    invoke_trap c

/-- Embedding of `abort` (`src/lib.rs`): delegates to `immediate_abort`
unless `abort_impl = "fallback"`, in which case it runs `fallback_abort`. -/
def abort (c : BuildConfig) : Option Outcome :=
  if abort_impl_name c ≠ "fallback" then
    immediate_abort c
  else
    fallback_abort c

/-- Embedding of `trap` (`src/lib.rs`): executes `invoke_trap` directly
unless `trap_impl = "fallback"`, in which case it delegates to `abort`. -/
def trap (c : BuildConfig) : Option Outcome :=
  if trap_impl_name c ≠ "fallback" then
    invoke_trap c
  else
    abort c

/-- Embedding of the `AbortGuard` struct (`src/lib.rs`):
`pub struct AbortGuard { _priv: () }`. -/
structure AbortGuard where
  _priv : Unit
deriving DecidableEq

/-- The observable effects a guard can perform. -/
inductive GuardEffect where
  | abortCall
deriving DecidableEq

/-- Embedding of `AbortGuard::new()`: constructs the guard. -/
def AbortGuard.new : AbortGuard := ⟨()⟩

/-- The effects performed by `AbortGuard::new()`: the body is a plain struct
literal, so construction has no observable effect. -/
def AbortGuard.newEffects : List GuardEffect := []

/-- Embedding of `AbortGuard::defuse(self)`: the body is
`core::mem::forget(self)`, so the drop code is skipped entirely and no
effect is performed. -/
def AbortGuard.defuse (_g : AbortGuard) : List GuardEffect := []

/-- Embedding of `<AbortGuard as Drop>::drop`: the body calls
`crate::abort()`. -/
def AbortGuard.drop (_g : AbortGuard) : List GuardEffect := [.abortCall]

/-- Disposal of a guard: when it was defused the drop code was forgotten,
on every other disposal path (normal scope exit or unwinding) Rust runs
`Drop::drop`. -/
def AbortGuard.dispose (g : AbortGuard) (defused : Bool) : List GuardEffect :=
  if defused then g.defuse else g.drop

/-- Embedding of `<AbortGuard as Default>::default()`: calls `Self::new()`. -/
def AbortGuard.default : AbortGuard := AbortGuard.new

/-- Embedding of the derived `<AbortGuard as Clone>::clone`: clones the unit
field. -/
def AbortGuard.clone (g : AbortGuard) : AbortGuard := ⟨g._priv⟩

/-! ## Concrete build configurations used as witnesses -/

/-- x86-64, stable Rust 1.75, `feature = "std"` enabled. -/
def cfgStd : BuildConfig :=
  { target_arch := "x86_64", rust_version := ⟨1, 75, false⟩,
    feature_std := true, feature_libc := false, feature_abort_via_trap := false,
    feature_always_immediate_abort := false, panic_abort := false }

/-- x86-64, stable Rust 1.75, no features: the trap implementation is
`"assembly"` but the abort implementation is the panic fallback, and the
build unwinds on panic. -/
def cfgFallback : BuildConfig :=
  { target_arch := "x86_64", rust_version := ⟨1, 75, false⟩,
    feature_std := false, feature_libc := false, feature_abort_via_trap := false,
    feature_always_immediate_abort := false, panic_abort := false }

/-- Like `cfgFallback`, but compiled with `panic = "abort"`. -/
def cfgPanicAbort : BuildConfig :=
  { target_arch := "x86_64", rust_version := ⟨1, 75, false⟩,
    feature_std := false, feature_libc := false, feature_abort_via_trap := false,
    feature_always_immediate_abort := false, panic_abort := true }

/-- riscv64, stable Rust 1.75, no features: no trap implementation is
available and the abort implementation is the panic fallback. -/
def cfgNoTrap : BuildConfig :=
  { target_arch := "riscv64", rust_version := ⟨1, 75, false⟩,
    feature_std := false, feature_libc := false, feature_abort_via_trap := false,
    feature_always_immediate_abort := false, panic_abort := false }

/-- x86-64 on stable Rust 1.58: the architecture is in the supported set but
the toolchain predates stable inline assembly (Rust 1.59). -/
def cfgOldStable : BuildConfig :=
  { target_arch := "x86_64", rust_version := ⟨1, 58, false⟩,
    feature_std := false, feature_libc := false, feature_abort_via_trap := false,
    feature_always_immediate_abort := false, panic_abort := false }

/-- x86-64, stable Rust 1.75, only `feature = "always-immediate-abort"`:
no immediate abort strategy resolves, so the build must fail. -/
def cfgStrict : BuildConfig :=
  { target_arch := "x86_64", rust_version := ⟨1, 75, false⟩,
    feature_std := false, feature_libc := false, feature_abort_via_trap := false,
    feature_always_immediate_abort := true, panic_abort := false }

/-- x86-64, stable Rust 1.75, `feature = "abort-via-trap"`: aborts by
executing the trap instruction. -/
def cfgViaTrap : BuildConfig :=
  { target_arch := "x86_64", rust_version := ⟨1, 75, false⟩,
    feature_std := false, feature_libc := false, feature_abort_via_trap := true,
    feature_always_immediate_abort := false, panic_abort := false }

/-! ## Spec-side selectors (for the refinement claims C2 and C3) -/

/-- Modelled from the words of claim C2 (spec §4.1, AbortStrategy): pick
`StandardRuntime` if the `std` feature is enabled; else `CRuntime` if the
`libc` feature is enabled; else `ViaTrap` if abort-via-trap is explicitly
requested and the selected `TrapStrategy` is not `Unavailable`; else
`PanicFallback`. -/
def claimAbortStrategy (c : BuildConfig) : AbortStrategy :=
  if c.feature_std then
    .StandardRuntime
  else if c.feature_libc then
    .CRuntime
  else if c.feature_abort_via_trap ∧ selectedTrapStrategy c ≠ some .Unavailable then
    .ViaTrap
  else
    .PanicFallback

/-- Modelled from the words of claim C3 (spec §4.1, TrapStrategy), taken
literally: a platform-specific unreachable intrinsic for the exact target
family (`wasm32`/`wasm64`); else `CoreIntrinsic` when the toolchain exposes
the internal unstable abort intrinsic (a nightly toolchain); else
`InlineAssembly` when the architecture is one of `x86`, `x86_64`, `arm`,
`aarch64`; else `Unavailable`. -/
def claimTrapStrategy (c : BuildConfig) : TrapStrategy :=
  if c.target_arch = "wasm32" ∨ c.target_arch = "wasm64" then
    .PlatformIntrinsic c.target_arch
  else if c.rust_version.is_nightly then
    .CoreIntrinsic
  else if supported_arch c.target_arch then
    .InlineAssembly
  else
    .Unavailable

/-- Claim C3's selector amended with the toolchain-version gates present in
`build.rs`: the `wasm32` intrinsic needs Rust 1.37, the `wasm64` intrinsic
needs a nightly toolchain, and inline assembly needs Rust 1.59. -/
def amendedTrapStrategy (c : BuildConfig) : TrapStrategy :=
  if c.target_arch = "wasm32" ∧ c.rust_version.is_since_minor_version 1 37 then
    .PlatformIntrinsic "wasm32"
  else if c.target_arch = "wasm64" ∧ c.rust_version.is_nightly then
    .PlatformIntrinsic "wasm64"
  else if c.rust_version.is_nightly then
    .CoreIntrinsic
  else if supported_arch c.target_arch ∧ c.rust_version.is_since_minor_version 1 59 then
    .InlineAssembly
  else
    .Unavailable

/-! ## Helper lemmas about the selector -/

/-- The build script only ever emits one of the five trap implementation
names. -/
theorem trap_impl_name_cases (c : BuildConfig) :
    trap_impl_name c = "wasm32-intrinsic" ∨ trap_impl_name c = "wasm64-intrinsic" ∨
    trap_impl_name c = "core-intrinsics" ∨ trap_impl_name c = "assembly" ∨
    trap_impl_name c = "fallback" := by
  unfold trap_impl_name
  split
  · exact Or.inl rfl
  split
  · exact Or.inr (Or.inl rfl)
  split
  · exact Or.inr (Or.inr (Or.inl rfl))
  split
  · exact Or.inr (Or.inr (Or.inr (Or.inl rfl)))
  · exact Or.inr (Or.inr (Or.inr (Or.inr rfl)))

/-- The build script only ever emits one of the four abort implementation
names. -/
theorem abort_impl_name_cases (c : BuildConfig) :
    abort_impl_name c = "std" ∨ abort_impl_name c = "libc" ∨
    abort_impl_name c = "trap" ∨ abort_impl_name c = "fallback" := by
  unfold abort_impl_name
  split
  · exact Or.inl rfl
  split
  · exact Or.inr (Or.inl rfl)
  split
  · exact Or.inr (Or.inr (Or.inl rfl))
  · exact Or.inr (Or.inr (Or.inr rfl))

/-- The `"assembly"` trap implementation is only selected for architectures
in the supported set, on a toolchain with stable inline assembly. -/
theorem trap_impl_assembly (c : BuildConfig) (h : trap_impl_name c = "assembly") :
    supported_arch c.target_arch = true ∧
      c.rust_version.is_since_minor_version 1 59 = true := by
  unfold trap_impl_name at h
  split at h
  · exact absurd h (by decide)
  split at h
  · exact absurd h (by decide)
  split at h
  · exact absurd h (by decide)
  split at h
  · rename_i hc
    exact hc
  · exact absurd h (by decide)

/-- An architecture accepted by `supported_arch` is one of the four listed. -/
theorem supported_arch_cases (a : String) (h : supported_arch a = true) :
    a = "x86_64" ∨ a = "x86" ∨ a = "arm" ∨ a = "aarch64" := by
  unfold supported_arch at h
  split at h <;> simp_all

/-- The `"trap"` abort implementation is only selected when a real trap
implementation exists. -/
theorem abort_impl_trap_has_trap (c : BuildConfig) (h : abort_impl_name c = "trap") :
    trap_impl_name c ≠ "fallback" := by
  unfold abort_impl_name at h
  split at h
  · exact absurd h (by decide)
  split at h
  · exact absurd h (by decide)
  split at h
  · rename_i hc
    exact hc.2
  · exact absurd h (by decide)

/-- Whenever a real trap implementation was selected, `invoke_trap` exists
and executes a single trap instruction or intrinsic. -/
theorem invoke_trap_some (c : BuildConfig) (h : trap_impl_name c ≠ "fallback") :
    ∃ i, invoke_trap c = some (.trapInstr i) := by
  rcases trap_impl_name_cases c with h1 | h1 | h1 | h1 | h1
  · exact ⟨"core::arch::wasm32::unreachable", by simp [invoke_trap, h1]⟩
  · exact ⟨"core::arch::wasm64::unreachable", by simp [invoke_trap, h1]⟩
  · exact ⟨"core::intrinsics::abort", by simp [invoke_trap, h1]⟩
  · obtain ⟨hs, _⟩ := trap_impl_assembly c h1
    rcases supported_arch_cases _ hs with ha | ha | ha | ha
    · exact ⟨"ud2", by simp [invoke_trap, h1, ha]⟩
    · exact ⟨"ud2", by simp [invoke_trap, h1, ha]⟩
    · exact ⟨"udf #0xDEAD", by simp [invoke_trap, h1, ha]⟩
    · exact ⟨"udf #0xDEAD", by simp [invoke_trap, h1, ha]⟩
  · exact absurd h1 h

/-- `immediate_abort` exists and produces a non-returning outcome whenever
the abort implementation is not the fallback. -/
theorem immediate_abort_some (c : BuildConfig) (h : abort_impl_name c ≠ "fallback") :
    ∃ o, immediate_abort c = some o ∧ o.neverReturns = true := by
  rcases abort_impl_name_cases c with h1 | h1 | h1 | h1
  · exact ⟨.stdAbort, by simp [immediate_abort, h1], rfl⟩
  · exact ⟨.libcAbort, by simp [immediate_abort, h1], rfl⟩
  · obtain ⟨i, hi⟩ := invoke_trap_some c (abort_impl_trap_has_trap c h1)
    exact ⟨.trapInstr i, by simp [immediate_abort, h1, hi], rfl⟩
  · exact absurd h1 h

/-- `abort` always resolves to a non-returning outcome. -/
theorem abort_some (c : BuildConfig) :
    ∃ o, abort c = some o ∧ o.neverReturns = true := by
  by_cases h : abort_impl_name c = "fallback"
  · refine ⟨if PANIC_DOES_ABORT c then .panicOnce panicMessage
        else .doublePanic panicMessage panicMessage, ?_, ?_⟩
    · simp [abort, fallback_abort, h]
    · by_cases hp : PANIC_DOES_ABORT c <;> simp [hp, Outcome.neverReturns]
  · obtain ⟨o, ho, hnr⟩ := immediate_abort_some c h
    exact ⟨o, by simp [abort, h, ho], hnr⟩

/-- `trap` always resolves to a non-returning outcome. -/
theorem trap_some (c : BuildConfig) :
    ∃ o, trap c = some o ∧ o.neverReturns = true := by
  by_cases h : trap_impl_name c = "fallback"
  · obtain ⟨o, ho, hnr⟩ := abort_some c
    exact ⟨o, by simp [trap, h, ho], hnr⟩
  · obtain ⟨i, hi⟩ := invoke_trap_some c h
    exact ⟨.trapInstr i, by simp [trap, h, hi], rfl⟩

/-- The selected abort strategy is `PanicFallback` exactly when the
configuration string is `"fallback"`. -/
theorem selectedAbortStrategy_fallback (c : BuildConfig) :
    selectedAbortStrategy c = some .PanicFallback ↔ abort_impl_name c = "fallback" := by
  rcases abort_impl_name_cases c with h1 | h1 | h1 | h1 <;>
    simp [selectedAbortStrategy, h1, abortStrategyOfImpl]

/-- The selected trap strategy is `Unavailable` exactly when the
configuration string is `"fallback"`. -/
theorem selectedTrapStrategy_unavailable (c : BuildConfig) :
    selectedTrapStrategy c = some .Unavailable ↔ trap_impl_name c = "fallback" := by
  rcases trap_impl_name_cases c with h1 | h1 | h1 | h1 | h1 <;>
    simp [selectedTrapStrategy, h1, trapStrategyOfImpl]

/-- The selected abort strategy is `StandardRuntime` exactly when the
configuration string is `"std"`. -/
theorem selectedAbortStrategy_std (c : BuildConfig) :
    selectedAbortStrategy c = some .StandardRuntime ↔ abort_impl_name c = "std" := by
  rcases abort_impl_name_cases c with h1 | h1 | h1 | h1 <;>
    simp [selectedAbortStrategy, h1, abortStrategyOfImpl]

/-- The selected abort strategy is `CRuntime` exactly when the configuration
string is `"libc"`. -/
theorem selectedAbortStrategy_libc (c : BuildConfig) :
    selectedAbortStrategy c = some .CRuntime ↔ abort_impl_name c = "libc" := by
  rcases abort_impl_name_cases c with h1 | h1 | h1 | h1 <;>
    simp [selectedAbortStrategy, h1, abortStrategyOfImpl]

/-- The selected abort strategy is `ViaTrap` exactly when the configuration
string is `"trap"`. -/
theorem selectedAbortStrategy_viaTrap (c : BuildConfig) :
    selectedAbortStrategy c = some .ViaTrap ↔ abort_impl_name c = "trap" := by
  rcases abort_impl_name_cases c with h1 | h1 | h1 | h1 <;>
    simp [selectedAbortStrategy, h1, abortStrategyOfImpl]

/-- The abort-strategy selection is always defined. -/
theorem selectedAbortStrategy_isSome (c : BuildConfig) :
    (selectedAbortStrategy c).isSome = true := by
  rcases abort_impl_name_cases c with h1 | h1 | h1 | h1 <;>
    simp [selectedAbortStrategy, h1, abortStrategyOfImpl]

/-- Every outcome of `invoke_trap` is the execution of a single trap
instruction or intrinsic. -/
theorem invoke_trap_shape (c : BuildConfig) (o : Outcome) (h : invoke_trap c = some o) :
    ∃ i, o = Outcome.trapInstr i := by
  unfold invoke_trap at h
  repeat' split at h
  all_goals simp_all
  all_goals exact ⟨_, h.symm⟩

/-- `immediate_abort` never raises a panic. -/
theorem immediate_abort_no_panic (c : BuildConfig) (o : Outcome)
    (h : immediate_abort c = some o) : o.panicMsgs = [] := by
  unfold immediate_abort at h
  split at h
  · simp at h
  split at h
  · simp only [Option.some_inj] at h
    subst h
    rfl
  split at h
  · simp only [Option.some_inj] at h
    subst h
    rfl
  · obtain ⟨i, rfl⟩ := invoke_trap_shape c o h
    rfl

/-- The outcome of `fallback_abort` is a single panic or a double panic,
always carrying the fixed message. -/
theorem fallback_abort_shape (c : BuildConfig) (o : Outcome) (h : fallback_abort c = some o) :
    o = Outcome.panicOnce panicMessage ∨
      o = Outcome.doublePanic panicMessage panicMessage := by
  unfold fallback_abort at h
  split at h
  · simp only [Option.some_inj] at h
    by_cases hp : PANIC_DOES_ABORT c = true
    · left
      rw [← h]
      simp [hp]
    · right
      rw [← h]
      simp [hp]
  · simp at h

/-- Every panic message raised by `abort` is the fixed static message. -/
theorem abort_msgs (c : BuildConfig) (o : Outcome) (h : abort c = some o) :
    ∀ m ∈ o.panicMsgs, m = panicMessage := by
  unfold abort at h
  split at h
  · simp [immediate_abort_no_panic c o h]
  · rcases fallback_abort_shape c o h with rfl | rfl <;> simp [Outcome.panicMsgs]

/-- Every panic message raised by `trap` is the fixed static message. -/
theorem trap_msgs (c : BuildConfig) (o : Outcome) (h : trap c = some o) :
    ∀ m ∈ o.panicMsgs, m = panicMessage := by
  unfold trap at h
  split at h
  · obtain ⟨i, rfl⟩ := invoke_trap_shape c o h
    simp [Outcome.panicMsgs]
  · exact abort_msgs c o h

/-- If `abort` raises any panic at all, the fallback strategy was selected. -/
theorem abort_panic_only_fallback (c : BuildConfig) (o : Outcome) (h : abort c = some o)
    (hne : o.panicMsgs ≠ []) :
    selectedAbortStrategy c = some AbortStrategy.PanicFallback := by
  unfold abort at h
  split at h
  · exact absurd (immediate_abort_no_panic c o h) hne
  · rename_i hf
    exact (selectedAbortStrategy_fallback c).mpr (not_not.mp hf)


/-! ## The claims -/

/-- Claim C1: for every build configuration, calling `abort()` never returns
to its caller: when the selected `AbortStrategy` is not `PanicFallback`,
`abort()` behaves exactly as `immediate_abort()`, and when it is
`PanicFallback`, `abort()` runs the fallback protocol; `trap()` likewise
never returns in any configuration. -/
theorem C1_abort_never_returns (c : BuildConfig) :
    (selectedAbortStrategy c ≠ some AbortStrategy.PanicFallback →
      abort c = immediate_abort c) ∧
    (selectedAbortStrategy c = some AbortStrategy.PanicFallback →
      abort c = fallback_abort c) ∧
    (∃ o, abort c = some o ∧ o.neverReturns = true) ∧
    (∃ o, trap c = some o ∧ o.neverReturns = true) := by
  refine ⟨?_, ?_, abort_some c, trap_some c⟩
  · intro h
    have hf : abort_impl_name c ≠ "fallback" := fun hh =>
      h ((selectedAbortStrategy_fallback c).mpr hh)
    simp [abort, hf]
  · intro h
    have hf := (selectedAbortStrategy_fallback c).mp h
    simp [abort, hf]

/-- Witness for C1: with the `std` feature, `abort` is `immediate_abort`;
with no features, it runs the fallback. -/
theorem C1_witness :
    abort cfgStd = immediate_abort cfgStd ∧
    abort cfgNoTrap = fallback_abort cfgNoTrap :=
  ⟨(C1_abort_never_returns cfgStd).1 (by decide),
   (C1_abort_never_returns cfgNoTrap).2.1 (by decide)⟩

/-- Claim C2: the implementation selector picks the `AbortStrategy` by first
match in priority order — `StandardRuntime` if the `std` feature is enabled;
else `CRuntime` if the `libc` feature is enabled; else `ViaTrap` if
abort-via-trap is explicitly requested and the selected `TrapStrategy` is
not `Unavailable`; else `PanicFallback`. -/
theorem C2_abort_selector (c : BuildConfig) :
    selectedAbortStrategy c = some (claimAbortStrategy c) := by
  have ht := selectedTrapStrategy_unavailable c
  unfold selectedAbortStrategy abort_impl_name claimAbortStrategy
  by_cases h1 : c.feature_std = true <;>
  by_cases h2 : c.feature_libc = true <;>
  by_cases h3 : c.feature_abort_via_trap = true <;>
  by_cases h4 : trap_impl_name c = "fallback" <;>
    simp [h1, h2, h3, h4, ht, abortStrategyOfImpl]

/-- Claim C3 as stated is false: it selects `InlineAssembly` for any
supported architecture, but on stable Rust 1.58 — before inline assembly
was stabilized in 1.59 — `build.rs` selects the `"fallback"` trap
implementation (`Unavailable`) even on x86-64. -/
theorem C3_counterexample :
    claimTrapStrategy cfgOldStable = TrapStrategy.InlineAssembly ∧
    selectedTrapStrategy cfgOldStable = some TrapStrategy.Unavailable ∧
    TrapStrategy.InlineAssembly ≠ TrapStrategy.Unavailable := by decide

/-- Claim C3, amended with the toolchain-version gates of `build.rs`
(Rust ≥ 1.37 for the wasm32 intrinsic, a nightly toolchain for the wasm64
intrinsic and for the core intrinsic, Rust ≥ 1.59 for inline assembly): the
trap-strategy selection matches the amended priority order, and for every
combination of architecture, toolchain and capability flags both selections
resolve to exactly one strategy. -/
theorem C3_trap_selector (c : BuildConfig) :
    selectedTrapStrategy c = some (amendedTrapStrategy c) ∧
    (selectedTrapStrategy c).isSome = true ∧
    (selectedAbortStrategy c).isSome = true := by
  refine ⟨?_, ?_, selectedAbortStrategy_isSome c⟩
  · unfold selectedTrapStrategy trap_impl_name amendedTrapStrategy
    by_cases h1 : c.target_arch = "wasm32" ∧
        c.rust_version.is_since_minor_version 1 37 = true <;>
    by_cases h2 : c.target_arch = "wasm64" ∧ c.rust_version.is_nightly = true <;>
    by_cases h3 : c.rust_version.is_nightly = true <;>
    by_cases h4 : supported_arch c.target_arch = true ∧
        c.rust_version.is_since_minor_version 1 59 = true <;>
      first
      | (simp [h1, h2, h3, h4, trapStrategyOfImpl]
         done)
      | exact absurd h2.2 h3
      | (have hw : c.target_arch ≠ "wasm64" := fun hh => h2 ⟨hh, h3⟩
         simp [h1, h2, h3, h4, hw, trapStrategyOfImpl])
  · rcases trap_impl_name_cases c with h1 | h1 | h1 | h1 | h1 <;>
      simp [selectedTrapStrategy, h1, trapStrategyOfImpl]

/-- Claim C4: `AbortGuard::new()` has no observable effect; a defused guard
performs no effect (the drop code is forgotten) and does not terminate the
process; on any other disposal path the guard's drop runs, calling `abort()`,
which terminates the process in every configuration. -/
theorem C4_abort_guard (c : BuildConfig) (g : AbortGuard) :
    AbortGuard.newEffects = [] ∧
    AbortGuard.defuse g = [] ∧
    AbortGuard.dispose g true = [] ∧
    AbortGuard.dispose g false = [GuardEffect.abortCall] ∧
    AbortGuard.drop g = [GuardEffect.abortCall] ∧
    (∃ o, abort c = some o ∧ o.neverReturns = true) :=
  ⟨rfl, rfl, rfl, rfl, rfl, abort_some c⟩

/-- Claim C5: `immediate_abort` exists exactly when the selected
`AbortStrategy` is not `PanicFallback`; when it exists it performs exactly
the selected platform abort facility and never raises a panic. -/
theorem C5_immediate_abort (c : BuildConfig) :
    ((immediate_abort c).isSome = true ↔
      selectedAbortStrategy c ≠ some AbortStrategy.PanicFallback) ∧
    (selectedAbortStrategy c = some AbortStrategy.StandardRuntime →
      immediate_abort c = some Outcome.stdAbort) ∧
    (selectedAbortStrategy c = some AbortStrategy.CRuntime →
      immediate_abort c = some Outcome.libcAbort) ∧
    (selectedAbortStrategy c = some AbortStrategy.ViaTrap →
      immediate_abort c = invoke_trap c ∧
        ∃ i, invoke_trap c = some (Outcome.trapInstr i)) ∧
    (∀ o, immediate_abort c = some o → o.panicMsgs = []) := by
  refine ⟨⟨?_, ?_⟩, ?_, ?_, ?_, fun o h => immediate_abort_no_panic c o h⟩
  · intro hs hP
    have hf := (selectedAbortStrategy_fallback c).mp hP
    simp [immediate_abort, hf] at hs
  · intro hne
    have hf : abort_impl_name c ≠ "fallback" := fun hh =>
      hne ((selectedAbortStrategy_fallback c).mpr hh)
    obtain ⟨o, ho, _⟩ := immediate_abort_some c hf
    simp [ho]
  · intro h
    have h1 := (selectedAbortStrategy_std c).mp h
    simp [immediate_abort, h1]
  · intro h
    have h1 := (selectedAbortStrategy_libc c).mp h
    simp [immediate_abort, h1]
  · intro h
    have h1 := (selectedAbortStrategy_viaTrap c).mp h
    refine ⟨by simp [immediate_abort, h1], ?_⟩
    exact invoke_trap_some c (abort_impl_trap_has_trap c h1)

/-- Witness for C5: with the `std` feature the immediate abort is the
standard-runtime abort; with `abort-via-trap` it is the trap instruction. -/
theorem C5_witness :
    immediate_abort cfgStd = some Outcome.stdAbort ∧
    immediate_abort cfgViaTrap = invoke_trap cfgViaTrap :=
  ⟨(C5_immediate_abort cfgStd).2.1 (by decide),
   ((C5_immediate_abort cfgViaTrap).2.2.2.1 (by decide)).1⟩

/-- Claim C6: on the fallback path, when the toolchain is known to abort on
unwind the protocol raises exactly one panic with the fixed message;
otherwise it installs the scoped double-panic guard — whose sole unwinding
effect is to raise the same message again — and raises the message once;
an unknown unwind policy (no `cfg!(panic)` support, Rust < 1.60) is treated
conservatively as unwinding normally. -/
theorem C6_fallback_protocol (c : BuildConfig) :
    (selectedAbortStrategy c = some AbortStrategy.PanicFallback →
      (PANIC_DOES_ABORT c = true →
        fallback_abort c = some (Outcome.panicOnce panicMessage)) ∧
      (PANIC_DOES_ABORT c = false →
        fallback_abort c = some (Outcome.doublePanic panicMessage panicMessage))) ∧
    (has_cfg_panic c = false → PANIC_DOES_ABORT c = false) := by
  constructor
  · intro h
    have hf := (selectedAbortStrategy_fallback c).mp h
    constructor
    · intro hp
      simp [fallback_abort, hf, hp]
    · intro hp
      simp [fallback_abort, hf, hp]
  · intro h
    simp [PANIC_DOES_ABORT, h]

/-- Witness for C6: with `panic = "abort"` the fallback raises a single
panic; with unwinding panics it uses the double-panic protocol. -/
theorem C6_witness :
    fallback_abort cfgPanicAbort = some (Outcome.panicOnce panicMessage) ∧
    fallback_abort cfgFallback =
      some (Outcome.doublePanic panicMessage panicMessage) :=
  ⟨((C6_fallback_protocol cfgPanicAbort).1 (by decide)).1 (by decide),
   ((C6_fallback_protocol cfgFallback).1 (by decide)).2 (by decide)⟩

/-- Claim C7 as stated is false in one detail: the fixed message in
`src/lib.rs` is `"fatal error - aborting"` (with an ASCII hyphen), not
`"fatal error — aborting"` (with an em dash) as the claim quotes it. -/
theorem C7_counterexample :
    abort cfgFallback = some (Outcome.doublePanic panicMessage panicMessage) ∧
    (Outcome.doublePanic panicMessage panicMessage).panicMsgs =
      [panicMessage, panicMessage] ∧
    panicMessage ≠ "fatal error — aborting" := by decide

/-- Claim C7, amended: the only error the system ever reports through its
normal mechanism is the fixed static message `"fatal error - aborting"`
(ASCII hyphen), raised only on the `PanicFallback` path, never formatted
with caller data. -/
theorem C7_single_message (c : BuildConfig) :
    panicMessage = "fatal error - aborting" ∧
    (∀ o, abort c = some o → ∀ m ∈ o.panicMsgs, m = panicMessage) ∧
    (∀ o, trap c = some o → ∀ m ∈ o.panicMsgs, m = panicMessage) ∧
    (∀ o, immediate_abort c = some o → o.panicMsgs = []) ∧
    (∀ o, invoke_trap c = some o → o.panicMsgs = []) ∧
    (∀ o, abort c = some o → o.panicMsgs ≠ [] →
      selectedAbortStrategy c = some AbortStrategy.PanicFallback) ∧
    (∀ o, fallback_abort c = some o →
      o.panicMsgs = [panicMessage] ∨ o.panicMsgs = [panicMessage, panicMessage]) := by
  refine ⟨rfl, abort_msgs c, trap_msgs c, fun o h => immediate_abort_no_panic c o h,
    ?_, abort_panic_only_fallback c, ?_⟩
  · intro o h
    obtain ⟨i, rfl⟩ := invoke_trap_shape c o h
    rfl
  · intro o h
    rcases fallback_abort_shape c o h with rfl | rfl
    · exact Or.inl rfl
    · exact Or.inr rfl

/-- Witness for C7: in the no-feature configuration the double panic is
raised, and the panic implies the fallback strategy was selected. -/
theorem C7_witness :
    selectedAbortStrategy cfgFallback = some AbortStrategy.PanicFallback :=
  (C7_single_message cfgFallback).2.2.2.2.2.1
    (Outcome.doublePanic panicMessage panicMessage) (by decide) (by decide)

/-- Claim C8: `trap()` executes the selected low-level trap operation
directly (a single non-returning instruction or intrinsic) whenever the
selected `TrapStrategy` is not `Unavailable`, and delegates to `abort()`
when it is `Unavailable`. -/
theorem C8_trap (c : BuildConfig) :
    (selectedTrapStrategy c ≠ some TrapStrategy.Unavailable →
      trap c = invoke_trap c ∧ ∃ i, trap c = some (Outcome.trapInstr i)) ∧
    (selectedTrapStrategy c = some TrapStrategy.Unavailable →
      trap c = abort c) := by
  constructor
  · intro h
    have hf : trap_impl_name c ≠ "fallback" := fun hh =>
      h ((selectedTrapStrategy_unavailable c).mpr hh)
    have ht : trap c = invoke_trap c := by simp [trap, hf]
    obtain ⟨i, hi⟩ := invoke_trap_some c hf
    exact ⟨ht, i, ht.trans hi⟩
  · intro h
    have hf := (selectedTrapStrategy_unavailable c).mp h
    simp [trap, hf]

/-- Witness for C8: on x86-64 `trap` executes the trap instruction directly;
on riscv64 stable it delegates to `abort`. -/
theorem C8_witness :
    trap cfgStd = invoke_trap cfgStd ∧ trap cfgNoTrap = abort cfgNoTrap :=
  ⟨((C8_trap cfgStd).1 (by decide)).1, (C8_trap cfgNoTrap).2 (by decide)⟩

/-- Claim C9: the crate produces a compilation error exactly when the
`always-immediate-abort` feature is enabled and the selected `AbortStrategy`
is `PanicFallback` — the build fails rather than silently selecting the
fallback implementation. -/
theorem C9_always_immediate (c : BuildConfig) :
    compile_errors c ≠ [] ↔
      (c.feature_always_immediate_abort = true ∧
        selectedAbortStrategy c = some AbortStrategy.PanicFallback) := by
  rw [selectedAbortStrategy_fallback]
  unfold compile_errors
  by_cases h1 : abort_impl_name c = "fallback" <;>
  by_cases h2 : c.feature_always_immediate_abort = true <;>
    simp [h1, h2]

/-- Witness for C9: enabling only `always-immediate-abort` on a no-feature
build makes the compilation fail. -/
theorem C9_witness : compile_errors cfgStrict ≠ [] :=
  (C9_always_immediate cfgStrict).mpr (by decide)

/-- Claim C10: `AbortGuard` also implements `Default` and `Clone`:
`default()` produces the same guard as `new()`, and a clone is an
independent guard — its disposal is decided solely by whether it was itself
defused, aborting on drop and performing nothing when defused. -/
theorem C10_default_clone (g : AbortGuard) (dClone dOrig : Bool) :
    AbortGuard.default = AbortGuard.new ∧
    AbortGuard.dispose (AbortGuard.clone g) dClone =
      (if dClone then [] else [GuardEffect.abortCall]) ∧
    AbortGuard.dispose g dOrig =
      (if dOrig then [] else [GuardEffect.abortCall]) ∧
    AbortGuard.defuse (AbortGuard.clone g) = [] := by
  refine ⟨rfl, ?_, ?_, rfl⟩
  · cases dClone <;> rfl
  · cases dOrig <;> rfl
